import Mathlib

/-!
Shallow embedding of the credential/session-security core of the
ortopedia-cemydi-web repository (NestJS backend).

Embedded source files:
- `src/backend/src/auth/auth.service.ts` (second, full revision):
  login, brute-force lockout, refresh-token rotation, token revocation,
  MFA verification, email verification.
- `src/backend/src/auth/strategies/jwt.strategy.ts`: `JwtStrategy.validate`
  together with the passport-jwt layer configured in its constructor
  (`ignoreExpiration: false`, fixed HS256 algorithm).
- `src/backend/src/auth/password-reset.service.ts` (6-digit OTP revision)
  and `src/unnamed/part_008` (token-based revision of the same service):
  password-reset request, dual rate limiting, reset consumption.

Conventions of the embedding:
- Timestamps are `Int` milliseconds (JS `Date.getTime()`); JWT `exp`/`iat`
  claims are seconds, multiplied by 1000 where the code does.
- The Prisma store is a record of row lists (`DB`); `findUnique`/`findFirst`
  become `List.find?` / a fold selecting the greatest `lastAttemptAt`
  (`orderBy lastAttemptAt desc`), `update where id` becomes a map over rows,
  `create` appends, `deleteMany` filters.
- External effects are oracle parameters: `bcryptOk` for `bcrypt.compare`,
  `signAccess`/`signMfa` for `jwtService.sign`, `totpOk` for
  `speakeasy.totp.verify`, fresh random strings for `crypto.randomBytes`
  outputs, `mailOk` for the Resend notifier, fresh `Nat` ids for created
  rows.
- Thrown `HttpException`s become `Err` values carrying the exception kind
  and exact message string.
-/

/-! ## Constants (auth.service.ts fields and literals) -/

def msPerMinute : Int := 60000

def attemptWindowMs : Int := 15 * msPerMinute

def lockoutDurationMs : Int := 15 * msPerMinute

def maxLoginAttempts : Nat := 5

def sevenDaysMs : Int := 7 * 24 * 60 * msPerMinute

def hourMs : Int := 60 * msPerMinute

def maxResetAttemptsPerHour : Nat := 3

def maxResetAttemptsPerHourByIp : Nat := 5

def resetTokenExpirationMs : Int := 10 * msPerMinute

/-- JS `Math.ceil(d / 60000)` for the positive millisecond differences the
code feeds it (remaining-time displays). -/
def ceilMinutes (d : Int) : Int := (d + 59999) / 60000

/-! ## Data model (Prisma rows) -/

structure UserRow where
  id : String
  email : String
  name : String
  role : String
  password : String
  emailVerified : Bool
  mfaEnabled : Bool
  mfaSecret : Option String
  lastLogoutAt : Option Int
deriving DecidableEq, Repr

structure RefreshTokenRow where
  id : Nat
  token : String
  userId : String
  expiresAt : Int
deriving DecidableEq, Repr

structure RevokedTokenRow where
  token : String
  userId : String
  expiresAt : Int
deriving DecidableEq, Repr

structure LoginAttemptRow where
  id : Nat
  email : String
  attempts : Nat
  lastAttemptAt : Int
  lockedUntil : Option Int
deriving DecidableEq, Repr

structure PasswordResetRow where
  email : String
  token : String
  expiresAt : Int
  attempts : Nat
  lastAttemptAt : Int
deriving DecidableEq, Repr

structure IpAttemptRow where
  id : Nat
  ipAddress : String
  attempts : Nat
  lastAttemptAt : Int
deriving DecidableEq, Repr

/-- The durable store: one list per Prisma table the core touches. -/
structure DB where
  users : List UserRow
  refreshTokens : List RefreshTokenRow
  revokedTokens : List RevokedTokenRow
  loginAttempts : List LoginAttemptRow
  passwordResets : List PasswordResetRow
  passwordResetAttempts : List IpAttemptRow
deriving DecidableEq, Repr

/-! ## Errors (NestJS HttpExceptions, by kind and message) -/

inductive ErrKind where
  | unauthorized
  | badRequest
  | notFound
deriving DecidableEq, Repr

structure Err where
  kind : ErrKind
  msg : String
deriving DecidableEq, Repr

deriving instance DecidableEq for Except

def invalidCredentialsMsg : String := "Credenciales inválidas"

def emailNotVerifiedMsg : String :=
  "Debes verificar tu correo electrónico antes de poder iniciar sesión. Revisa tu bandeja de entrada."

def mfaRequiredMsg : String :=
  "Ingresa el código de tu aplicación autenticadora para completar el inicio de sesión"

def lockedRemainingMsg (m : Int) : String :=
  "Cuenta bloqueada por múltiples intentos fallidos. Intenta nuevamente en " ++ toString m ++ " minutos."

def lockedNowMsg : String :=
  "Cuenta bloqueada por 15 minutos debido a múltiples intentos fallidos."

/-! ## JWT pipeline: passport-jwt layer + `JwtStrategy.validate`

`decoded = none` stands for a request whose bearer token fails signature
verification or decoding (passport rejects it before `validate` runs);
`ignoreExpiration: false` makes passport reject an expired `exp` likewise.
`validate` then checks payload shape (JS truthiness on `sub`/`email`:
empty string is falsy) and the revocation ledger, and returns the request
user.  Note it reads nothing else from the store. -/

structure AccessPayload where
  sub : String
  email : String
  role : String
  iat : Int
  exp : Int
deriving DecidableEq, Repr

structure ReqUser where
  userId : String
  email : String
  role : String
deriving DecidableEq, Repr

def jwtValidate (st : DB) (tokenStr : String) (decoded : Option AccessPayload)
    (now : Int) : Except Err ReqUser :=
  match decoded with
  | none => .error ⟨.unauthorized, "Unauthorized"⟩
  | some payload =>
    if payload.exp * 1000 ≤ now then
      .error ⟨.unauthorized, "Unauthorized"⟩
    else if payload.sub == "" || payload.email == "" then
      .error ⟨.unauthorized, "Token inválido"⟩
    else if st.revokedTokens.any (fun r => r.token == tokenStr) then
      .error ⟨.unauthorized, "Token revocado. Por favor, inicia sesión nuevamente."⟩
    else
      .ok ⟨payload.sub, payload.email, payload.role⟩

/-! ## Revocation (`AuthService.revokeToken`) -/

/-- Result of `jwtService.decode(token)`: `none` if the string does not
decode; the payload's `exp` claim may be absent.  The guard
`!decoded || !decoded.exp` also treats `exp = 0` as missing (JS falsiness). -/
structure DecodedToken where
  exp : Option Int
deriving DecidableEq, Repr

def revokeToken (st : DB) (token userId : String) (decoded : Option DecodedToken)
    (now : Int) : DB :=
  match decoded with
  | none => st
  | some d =>
    match d.exp with
    | none => st
    | some e =>
      if e == 0 then st
      else
        let expiresAt := e * 1000
        let st1 : DB := { st with revokedTokens := st.revokedTokens ++ [⟨token, userId, expiresAt⟩] }
        let st2 : DB := { st1 with users := st1.users.map (fun u => if u.id == userId then { u with lastLogoutAt := some now } else u) }
        let st3 : DB := { st2 with refreshTokens := st2.refreshTokens.filter (fun r => !(r.userId == userId)) }
        { st3 with revokedTokens := st3.revokedTokens.filter (fun r => !(r.expiresAt < now)) }

def isTokenRevoked (st : DB) (token : String) : Bool :=
  st.revokedTokens.any (fun r => r.token == token)

/-- Concrete store for the C1 evaluation: one verified user `u1` who holds
one live refresh token. -/
def c1State : DB :=
  { users := [⟨"u1", "a@x.com", "Ana", "client", "hash1", true, false, none, none⟩]
    refreshTokens := [⟨1, "r1", "u1", 9999999999999⟩]
    revokedTokens := []
    loginAttempts := []
    passwordResets := []
    passwordResetAttempts := [] }

/-- Store after user `u1` logs out at t = 2000000 ms presenting access token
`oldTok` (which decodes with `exp = 9999999999 s`). -/
def c1After : DB := revokeToken c1State "oldTok" "u1" (some ⟨some 9999999999⟩) 2000000

/-- C1: the protected-request validation path does not enforce the
last-logout watermark.  After `revokeToken` (logout at t = 2000000 ms) sets
`lastLogoutAt`, a different access token issued at `iat = 1000 s`
(1000000 ms, before the watermark), with valid signature, far-future `exp`,
and absent from the revocation ledger, is still accepted by
`jwtValidate` — contradicting validity condition (d) and the comment in
`revokeToken` that every earlier token will be rejected. -/
theorem jwt_validate_ignores_logout_watermark :
    ((c1After.users.find? (fun u => u.id == "u1")).map (fun u => u.lastLogoutAt)
        = some (some 2000000))
    ∧ isTokenRevoked c1After "oldTok" = true
    ∧ isTokenRevoked c1After "tokA" = false
    ∧ (1000 : Int) * 1000 < 2000000
    ∧ jwtValidate c1After "tokA" (some ⟨"u1", "a@x.com", "client", 1000, 9999999999⟩) 3000000
        = .ok ⟨"u1", "a@x.com", "client"⟩ := by
  decide

/-- C10: a logout presenting a token that does not decode to a payload with
an `exp` claim performs no session teardown: `revokeToken` returns the
store unchanged. -/
theorem revokeToken_noop_on_undecodable (st : DB) (token userId : String)
    (decoded : Option DecodedToken) (now : Int)
    (h : decoded = none ∨ decoded = some ⟨none⟩) :
    revokeToken st token userId decoded now = st := by
  rcases h with h | h <;> simp [revokeToken, h]

theorem revokeToken_noop_on_undecodable_witness :
    revokeToken c1State "garbage" "u1" none 5 = c1State :=
  revokeToken_noop_on_undecodable c1State "garbage" "u1" none 5 (Or.inl rfl)

/-! ## Brute-force protection (`checkBruteForceProtection`,
`recordFailedLoginAttempt`, `resetLoginAttempts`) -/

/-- `prisma.loginAttempt.findFirst({where: p, orderBy: lastAttemptAt desc})`:
the row satisfying `p` with the greatest `lastAttemptAt` (first such row on
ties). -/
def findLatestAttempt (rows : List LoginAttemptRow) (p : LoginAttemptRow → Bool) :
    Option LoginAttemptRow :=
  (rows.filter p).foldl
    (fun acc r =>
      match acc with
      | none => some r
      | some b => if b.lastAttemptAt < r.lastAttemptAt then some r else some b)
    none

/-- `prisma.loginAttempt.update({where: {id}, data})` as a map over rows. -/
def updateAttemptRow (st : DB) (id : Nat) (f : LoginAttemptRow → LoginAttemptRow) : DB :=
  { st with loginAttempts := st.loginAttempts.map (fun r => if r.id == id then f r else r) }

def resetLoginAttempts (st : DB) (email : String) : DB :=
  { st with loginAttempts := st.loginAttempts.filter (fun r => !(r.email == email)) }

/-- Tail of `checkBruteForceProtection` after the locked-until gate: the
attempt-window check and the at-limit lock transition. -/
def bruteForceWindowCheck (st : DB) (email : String) (now : Int)
    (la : LoginAttemptRow) : Option Err × DB :=
  if la.lastAttemptAt < now - attemptWindowMs then
    (none, resetLoginAttempts st email)
  else if maxLoginAttempts ≤ la.attempts then
    (some ⟨.unauthorized, lockedNowMsg⟩,
     updateAttemptRow st la.id (fun r => { r with lockedUntil := some (now + lockoutDurationMs) }))
  else
    (none, st)

/-- `checkBruteForceProtection(email)`: returns the thrown error (if any) and
the possibly mutated store. -/
def checkBruteForceProtection (st : DB) (email : String) (now : Int) :
    Option Err × DB :=
  match findLatestAttempt st.loginAttempts (fun r => r.email == email) with
  | none => (none, st)
  | some la =>
    match la.lockedUntil with
    | some lu =>
      if now < lu then
        (some ⟨.unauthorized, lockedRemainingMsg (ceilMinutes (lu - now))⟩, st)
      else
        bruteForceWindowCheck st email now la
    | none => bruteForceWindowCheck st email now la

def recordFailedLoginAttempt (st : DB) (email : String) (now : Int) (freshId : Nat) : DB :=
  match findLatestAttempt st.loginAttempts
      (fun r => r.email == email && now - attemptWindowMs ≤ r.lastAttemptAt) with
  | some ex =>
    updateAttemptRow st ex.id (fun r => { r with attempts := ex.attempts + 1, lastAttemptAt := now })
  | none =>
    match findLatestAttempt st.loginAttempts (fun r => r.email == email) with
    | some old =>
      updateAttemptRow st old.id
        (fun r => { r with attempts := 1, lastAttemptAt := now, lockedUntil := none })
    | none =>
      { st with loginAttempts := st.loginAttempts ++ [⟨freshId, email, 1, now, none⟩] }

/-! ## Session manager (`login`, `refreshAccessToken`) -/

structure PublicUser where
  id : String
  name : String
  email : String
  role : String
deriving DecidableEq, Repr

def publicOf (u : UserRow) : PublicUser := ⟨u.id, u.name, u.email, u.role⟩

inductive LoginResult where
  | mfaRequired (mfaToken : String) (message : String)
  | success (accessToken refreshToken : String) (user : PublicUser)
deriving DecidableEq, Repr

def cleanExpiredRefreshTokens (st : DB) (userId : String) (now : Int) : DB :=
  { st with refreshTokens :=
      st.refreshTokens.filter (fun r => !(r.userId == userId && r.expiresAt < now)) }

def login (st : DB) (email password : String) (now : Int)
    (bcryptOk : String → String → Bool)
    (signAccess : UserRow → String) (signMfa : UserRow → String)
    (freshRefresh : String) (freshId : Nat) : Except Err LoginResult × DB :=
  match checkBruteForceProtection st email now with
  | (some e, st1) => (.error e, st1)
  | (none, st1) =>
    match st1.users.find? (fun u => u.email == email) with
    | none =>
      (.error ⟨.unauthorized, invalidCredentialsMsg⟩,
       recordFailedLoginAttempt st1 email now freshId)
    | some user =>
      if !user.emailVerified then
        (.error ⟨.unauthorized, emailNotVerifiedMsg⟩,
         recordFailedLoginAttempt st1 email now freshId)
      else if !bcryptOk password user.password then
        (.error ⟨.unauthorized, invalidCredentialsMsg⟩,
         recordFailedLoginAttempt st1 email now freshId)
      else
        let st2 := resetLoginAttempts st1 email
        if user.mfaEnabled then
          (.ok (.mfaRequired (signMfa user) mfaRequiredMsg), st2)
        else
          let st3 : DB := { st2 with refreshTokens :=
            st2.refreshTokens ++ [⟨freshId, freshRefresh, user.id, now + sevenDaysMs⟩] }
          (.ok (.success (signAccess user) freshRefresh (publicOf user)),
           cleanExpiredRefreshTokens st3 user.id now)

def refreshAccessToken (st : DB) (tok : String) (now : Int)
    (signAccess : UserRow → String) (fresh : String) :
    Except Err (String × String) × DB :=
  match st.refreshTokens.find? (fun r => r.token == tok) with
  | none => (.error ⟨.unauthorized, "Refresh token inválido"⟩, st)
  | some row =>
    if row.expiresAt < now then
      (.error ⟨.unauthorized, "Refresh token expirado. Por favor, inicia sesión nuevamente."⟩,
       { st with refreshTokens := st.refreshTokens.filter (fun r => !(r.id == row.id)) })
    else
      match st.users.find? (fun u => u.id == row.userId) with
      | none => (.error ⟨.unauthorized, "Usuario no encontrado"⟩, st)
      | some user =>
        (.ok (signAccess user, fresh),
         { st with refreshTokens :=
             st.refreshTokens.map (fun r => if r.id == row.id then { r with token := fresh, expiresAt := now + sevenDaysMs } else r) })

/-! ## MFA engine (`verifyMfa`) -/

/-- Payload of the short-lived pending assertion minted by `login` when MFA
is enabled (`jwtService.sign({sub, email, role, mfaPending: true}, 5m)`). -/
structure MfaPayload where
  sub : String
  email : String
  role : String
  mfaPending : Bool
deriving DecidableEq, Repr

structure AuthTokens where
  accessToken : String
  refreshToken : String
  user : PublicUser
deriving DecidableEq, Repr

/-- `AuthService.verifyMfa(mfaToken, totpCode)`.  `decoded = none` stands for
`jwtService.verify` throwing (bad signature or expired assertion); `totpOk`
stands for `speakeasy.totp.verify` with `window: 2` against the given
secret and code. -/
def verifyMfa (st : DB) (decoded : Option MfaPayload) (totpOk : String → String → Bool)
    (totpCode : String) (signAccess : UserRow → String) (fresh : String)
    (freshId : Nat) (now : Int) : Except Err AuthTokens × DB :=
  match decoded with
  | none =>
    (.error ⟨.unauthorized, "Token MFA inválido o expirado. Por favor, inicia sesión nuevamente."⟩, st)
  | some payload =>
    if !payload.mfaPending then
      (.error ⟨.unauthorized, "Token inválido"⟩, st)
    else
      match st.users.find? (fun u => u.id == payload.sub) with
      | none => (.error ⟨.notFound, "Usuario no encontrado"⟩, st)
      | some user =>
        match user.mfaSecret, user.mfaEnabled with
        | some secret, true =>
          if !totpOk secret totpCode then
            (.error ⟨.unauthorized, "Código TOTP inválido. Acceso denegado."⟩, st)
          else
            let st1 : DB := { st with refreshTokens :=
                st.refreshTokens ++ [⟨freshId, fresh, user.id, now + sevenDaysMs⟩] }
            (.ok ⟨signAccess user, fresh, publicOf user⟩,
             cleanExpiredRefreshTokens st1 user.id now)
        | _, _ =>
          (.error ⟨.unauthorized, "MFA no está configurado para este usuario"⟩, st)

/-! ## Recovery engine (`src/unnamed/part_008`: token-based
`PasswordResetService`) -/

def ipRateLimitMsg (m : Int) : String :=
  "Has alcanzado el límite de 5 solicitudes por hora desde esta dirección IP. Por favor, intenta nuevamente en " ++ toString m ++ " minutos."

def emailRateLimitMsg (m : Int) : String :=
  "Has alcanzado el límite de 3 solicitudes por hora para este correo. Por favor, intenta nuevamente en " ++ toString m ++ " minutos."

def mailFailMsg : String :=
  "No se pudo enviar el correo de recuperación. Verifica que RESEND_API_KEY esté configurada correctamente."

def resetTokenNotFoundMsg : String :=
  "Token de recuperación no encontrado o inválido. Solicita un nuevo enlace de recuperación."

/-- `prisma.passwordResetAttempt.findFirst({where: p, orderBy: lastAttemptAt
desc})`. -/
def findLatestIpAttempt (rows : List IpAttemptRow) (p : IpAttemptRow → Bool) :
    Option IpAttemptRow :=
  (rows.filter p).foldl
    (fun acc r =>
      match acc with
      | none => some r
      | some b => if b.lastAttemptAt < r.lastAttemptAt then some r else some b)
    none

def updateIpAttemptRow (st : DB) (id : Nat) (f : IpAttemptRow → IpAttemptRow) : DB :=
  { st with passwordResetAttempts :=
      st.passwordResetAttempts.map (fun r => if r.id == id then f r else r) }

/-- `PasswordResetService.checkIpRateLimit(ipAddress)`: error (if limited)
plus the store with the IP counter advanced. -/
def checkIpRateLimit (st : DB) (ip : String) (now : Int) (freshId : Nat) :
    Option Err × DB :=
  match findLatestIpAttempt st.passwordResetAttempts
      (fun r => r.ipAddress == ip && now - hourMs ≤ r.lastAttemptAt) with
  | some a =>
    if maxResetAttemptsPerHourByIp ≤ a.attempts then
      (some ⟨.badRequest, ipRateLimitMsg (ceilMinutes (a.lastAttemptAt + hourMs - now))⟩, st)
    else
      (none, updateIpAttemptRow st a.id (fun r => { r with attempts := a.attempts + 1, lastAttemptAt := now }))
  | none =>
    match findLatestIpAttempt st.passwordResetAttempts (fun r => r.ipAddress == ip) with
    | some old =>
      (none, updateIpAttemptRow st old.id (fun r => { r with attempts := 1, lastAttemptAt := now }))
    | none =>
      (none, { st with passwordResetAttempts := st.passwordResetAttempts ++ [⟨freshId, ip, 1, now⟩] })

/-- Tail of `requestPasswordReset` after the rate-limit bookkeeping: store the
fresh token (update the existing row keyed by email, or create one) and hand
off to the notifier; on notifier failure delete the row and throw. -/
def issueResetToken (st : DB) (email freshToken : String) (now : Int)
    (hasExisting : Bool) (mailOk : Bool) : Option Err × DB :=
  let expiresAt := now + resetTokenExpirationMs
  let st2 : DB :=
    if hasExisting then
      { st with passwordResets :=
          st.passwordResets.map (fun p => if p.email == email then { p with token := freshToken, expiresAt := expiresAt } else p) }
    else
      { st with passwordResets := st.passwordResets ++ [⟨email, freshToken, expiresAt, 1, now⟩] }
  if mailOk then (none, st2)
  else
    (some ⟨.badRequest, mailFailMsg⟩,
     { st2 with passwordResets := st2.passwordResets.filter (fun p => !(p.email == email)) })

def updateResetRowByEmail (st : DB) (email : String)
    (f : PasswordResetRow → PasswordResetRow) : DB :=
  { st with passwordResets :=
      st.passwordResets.map (fun p => if p.email == email then f p else p) }

/-- `PasswordResetService.requestPasswordReset(email, ipAddress)` of
`src/unnamed/part_008`. -/
def requestPasswordReset (st : DB) (email ip : String) (now : Int)
    (freshToken : String) (freshId : Nat) (mailOk : Bool) : Option Err × DB :=
  match checkIpRateLimit st ip now freshId with
  | (some e, st1) => (some e, st1)
  | (none, st1) =>
    match st1.users.find? (fun u => u.email == email) with
    | none => (none, st1)
    | some _ =>
      match st1.passwordResets.find? (fun p => p.email == email) with
      | some ex =>
        if now - hourMs < ex.lastAttemptAt then
          if maxResetAttemptsPerHour ≤ ex.attempts then
            (some ⟨.badRequest, emailRateLimitMsg (ceilMinutes (ex.lastAttemptAt + hourMs - now))⟩, st1)
          else
            issueResetToken
              (updateResetRowByEmail st1 email (fun p => { p with attempts := ex.attempts + 1, lastAttemptAt := now }))
              email freshToken now true mailOk
        else
          issueResetToken
            (updateResetRowByEmail st1 email (fun p => { p with attempts := 1, lastAttemptAt := now }))
            email freshToken now true mailOk
      | none => issueResetToken st1 email freshToken now false mailOk

/-- Password complexity regex of `resetPassword`:
`(?=.*[a-z])(?=.*[A-Z])(?=.*\d)(?=.*[@$!%*?&#])`. -/
def isSpecialChar (c : Char) : Bool :=
  c = '@' || c = '$' || c = '!' || c = '%' || c = '*' || c = '?' || c = '&' || c = '#'

def passwordComplexOk (s : String) : Bool :=
  s.toList.any Char.isLower && s.toList.any Char.isUpper &&
  s.toList.any Char.isDigit && s.toList.any isSpecialChar

/-- `PasswordResetService.resetPassword(token, newPassword)` of
`src/unnamed/part_008`; `hashed` stands for `bcrypt.hash(newPassword, 10)`. -/
def resetPassword (st : DB) (token newPassword : String) (now : Int)
    (hashed : String) : Except Err Unit × DB :=
  match st.passwordResets.find? (fun p => p.token == token) with
  | none => (.error ⟨.unauthorized, resetTokenNotFoundMsg⟩, st)
  | some reset =>
    if reset.expiresAt < now then
      (.error ⟨.unauthorized, "El enlace de recuperación ha expirado. Los enlaces expiran después de 10 minutos. Solicita un nuevo enlace."⟩,
       { st with passwordResets := st.passwordResets.filter (fun p => !(p.token == token)) })
    else
      match st.users.find? (fun u => u.email == reset.email) with
      | none => (.error ⟨.notFound, "Usuario no encontrado"⟩, st)
      | some _ =>
        if newPassword.length < 8 then
          (.error ⟨.badRequest, "La contraseña debe tener al menos 8 caracteres"⟩, st)
        else if !passwordComplexOk newPassword then
          (.error ⟨.badRequest, "La contraseña debe contener al menos una letra mayúscula, una minúscula, un número y un carácter especial (@$!%*?&#)"⟩, st)
        else
          let newUsers := st.users.map (fun u => if u.email == reset.email then { u with password := hashed } else u)
          let st1 : DB := { st with users := newUsers }
          (.ok (),
           { st1 with passwordResets := st1.passwordResets.filter (fun p => !(p.token == token)) })

/-! ## Token generation (`Token Codec`) -/

/-- One hex digit (lower case), as produced by Node `Buffer.toString('hex')`. -/
def hexDigit (n : Nat) : Char :=
  if n < 10 then Char.ofNat (48 + n) else Char.ofNat (87 + n)

def byteToHex (b : Nat) : List Char := [hexDigit (b / 16), hexDigit (b % 16)]

/-- `Buffer.toString('hex')` over the byte list returned by
`crypto.randomBytes`. -/
def hexEncode (bytes : List Nat) : String :=
  String.mk ((bytes.map byteToHex).flatten)

/-- `AuthService.generateRefreshToken`: `crypto.randomBytes(64).toString('hex')`;
the argument stands for the 64 random bytes. -/
def generateRefreshToken (randBytes : List Nat) : String := hexEncode randBytes

/-- `part_008`'s `generateResetToken`: `randomBytes(32).toString('hex')`. -/
def generateResetToken (randBytes : List Nat) : String := hexEncode randBytes

/-- `AuthService.generateVerificationToken`: `crypto.randomBytes(32).toString('hex')`. -/
def generateVerificationToken (randBytes : List Nat) : String := hexEncode randBytes

/-- Numeric value computed by `password-reset.service.ts`'s `generateOTP`:
`Math.floor(100000 + Math.random() * 900000)`, with `randomVal` standing for
the `Math.random()` output in `[0, 1)`. -/
def otpValue (randomVal : ℚ) : Int := Int.floor ((100000 : ℚ) + randomVal * 900000)

/-- `PasswordResetService.generateOTP` of `password-reset.service.ts`:
the decimal string of `otpValue`. -/
def generateOTP (randomVal : ℚ) : String := toString (otpValue randomVal)

/-! ## Theorems -/

/-- C6: a successful `resetPassword` deletes the stored token row, so a
second call presenting the same token value is rejected as
not-found/invalid. -/
theorem reset_token_single_use (st : DB) (tok pw pw2 h1 h2 : String)
    (now now2 : Int)
    (hok : (resetPassword st tok pw now h1).1 = .ok ()) :
    (resetPassword (resetPassword st tok pw now h1).2 tok pw2 now2 h2).1 =
      .error ⟨.unauthorized, resetTokenNotFoundMsg⟩ := by
  unfold resetPassword at hok ⊢
  cases hfind : st.passwordResets.find? (fun p => p.token == tok) with
  | none => simp [hfind] at hok
  | some reset =>
    simp only [hfind] at hok ⊢
    by_cases hexp : reset.expiresAt < now
    · simp [hexp] at hok
    · simp only [if_neg hexp] at hok ⊢
      cases huser : st.users.find? (fun u => u.email == reset.email) with
      | none => simp [huser] at hok
      | some u =>
        simp only [huser] at hok ⊢
        by_cases hlen : pw.length < 8
        · simp [hlen] at hok
        · simp only [if_neg hlen] at hok ⊢
          by_cases hcx : passwordComplexOk pw
          · simp only [hcx, Bool.not_true, Bool.false_eq_true, if_false] at hok ⊢
            have hnone :
                (st.passwordResets.filter (fun p => !(p.token == tok))).find?
                  (fun p => p.token == tok) = none := by
              rw [List.find?_eq_none]
              intro x hx
              have := (List.mem_filter.1 hx).2
              simpa using this
            simp [hnone]
          · simp [hcx] at hok

/-- Concrete store for witnesses: verified user `a@x.com` with one live
reset token `tk1` and one live refresh token `r1`. -/
def wState : DB :=
  { users := [⟨"u1", "a@x.com", "Ana", "client", "hash1", true, false, none, none⟩]
    refreshTokens := [⟨1, "r1", "u1", 1000000⟩]
    revokedTokens := []
    loginAttempts := []
    passwordResets := [⟨"a@x.com", "tk1", 1000000, 1, 0⟩]
    passwordResetAttempts := [] }

theorem reset_token_single_use_witness :
    (resetPassword (resetPassword wState "tk1" "Abcdef1!" 5 "newhash").2
        "tk1" "Abcdef1!" 6 "newhash2").1 =
      .error ⟨.unauthorized, resetTokenNotFoundMsg⟩ :=
  reset_token_single_use wState "tk1" "Abcdef1!" "Abcdef1!" "newhash" "newhash2" 5 6
    (by decide)

/-- C2: for a stored, unexpired refresh token of an existing user,
`refreshAccessToken` succeeds, returns a fresh access token and the fresh
refresh-token value, replaces the stored row in place, and a subsequent
call presenting the old value is rejected.  The freshness hypotheses record
that the rotated value is a new random string distinct from the old one and
that the token column is unique (Prisma `findUnique` key). -/
theorem refresh_token_rotation_single_use (st : DB) (tok fresh fresh2 : String)
    (now now2 : Int) (row : RefreshTokenRow) (u : UserRow)
    (signAccess signAccess2 : UserRow → String)
    (hfind : st.refreshTokens.find? (fun r => r.token == tok) = some row)
    (hexp : ¬ row.expiresAt < now)
    (huser : st.users.find? (fun x => x.id == row.userId) = some u)
    (hfresh : fresh ≠ tok)
    (huniq : ∀ r ∈ st.refreshTokens, r.token = tok → r = row) :
    refreshAccessToken st tok now signAccess fresh =
      (.ok (signAccess u, fresh),
       { st with refreshTokens :=
           st.refreshTokens.map (fun r => if r.id == row.id then { r with token := fresh, expiresAt := now + sevenDaysMs } else r) })
    ∧ (refreshAccessToken (refreshAccessToken st tok now signAccess fresh).2
         tok now2 signAccess2 fresh2).1 =
        .error ⟨.unauthorized, "Refresh token inválido"⟩ := by
  have hstep : refreshAccessToken st tok now signAccess fresh =
      (.ok (signAccess u, fresh),
       { st with refreshTokens :=
           st.refreshTokens.map (fun r => if r.id == row.id then { r with token := fresh, expiresAt := now + sevenDaysMs } else r) }) := by
    unfold refreshAccessToken
    simp [hfind, hexp, huser]
  refine ⟨hstep, ?_⟩
  rw [hstep]
  unfold refreshAccessToken
  have hnone :
      (st.refreshTokens.map (fun r => if r.id == row.id then { r with token := fresh, expiresAt := now + sevenDaysMs } else r)).find?
        (fun r => r.token == tok) = none := by
    rw [List.find?_eq_none]
    intro x hx
    rcases List.mem_map.1 hx with ⟨y, hy, rfl⟩
    by_cases hid : (y.id == row.id) = true
    · simp only [hid, if_true]
      simpa using hfresh
    · simp only [hid, if_false]
      intro hcontra
      have hytok : y.token = tok := by simpa using hcontra
      have : y = row := huniq y hy hytok
      subst this
      simp at hid
  simp only [hnone]

theorem refresh_token_rotation_single_use_witness :
    refreshAccessToken wState "r1" 5 (fun _ => "acc") "r2" =
      (.ok ("acc", "r2"),
       { wState with refreshTokens :=
           wState.refreshTokens.map (fun r => if r.id == (1 : Nat) then { r with token := "r2", expiresAt := 5 + sevenDaysMs } else r) })
    ∧ (refreshAccessToken (refreshAccessToken wState "r1" 5 (fun _ => "acc") "r2").2
         "r1" 6 (fun _ => "acc2") "r3").1 =
        .error ⟨.unauthorized, "Refresh token inválido"⟩ :=
  refresh_token_rotation_single_use wState "r1" "r2" "r3" 5 6
    ⟨1, "r1", "u1", 1000000⟩
    ⟨"u1", "a@x.com", "Ana", "client", "hash1", true, false, none, none⟩
    (fun _ => "acc") (fun _ => "acc2")
    (by decide) (by decide) (by decide) (by decide) (by decide)

/-- C3: with MFA enabled, a correct password yields only the MFA-required
response (no access or refresh token minted and no refresh row stored);
`verifyMfa` with a wrong TOTP code rejects and changes nothing, for any
number of retries, leaving the pending assertion usable; with the right
code it mints both tokens; and an `ok` result of `verifyMfa` can only arise
from a pending-flagged assertion for an MFA-enabled user with a stored
secret and a code accepted for that secret. -/
theorem mfa_gate (st st2 : DB) (email pw totpBad totpGood : String)
    (now now2 : Int)
    (bcryptOk : String → String → Bool) (signAccess sa2 : UserRow → String)
    (signMfa : UserRow → String) (fresh fr2 : String) (fid fid2 : Nat)
    (totpOk : String → String → Bool)
    (u : UserRow) (secret : String) (payload : MfaPayload)
    (hnoAtt : findLatestAttempt st.loginAttempts (fun r => r.email == email) = none)
    (hfind : st.users.find? (fun x => x.email == email) = some u)
    (hver : u.emailVerified = true)
    (hpw : bcryptOk pw u.password = true)
    (hmfa : u.mfaEnabled = true)
    (hpend : payload.mfaPending = true)
    (hfind2 : st2.users.find? (fun x => x.id == payload.sub) = some u)
    (hsec : u.mfaSecret = some secret)
    (hbad : totpOk secret totpBad = false)
    (hgood : totpOk secret totpGood = true) :
    login st email pw now bcryptOk signAccess signMfa fresh fid =
      (.ok (.mfaRequired (signMfa u) mfaRequiredMsg), resetLoginAttempts st email)
    ∧ (resetLoginAttempts st email).refreshTokens = st.refreshTokens
    ∧ verifyMfa st2 (some payload) totpOk totpBad sa2 fr2 fid2 now2 =
        (.error ⟨.unauthorized, "Código TOTP inválido. Acceso denegado."⟩, st2)
    ∧ (∀ n : Nat,
        (fun s => (verifyMfa s (some payload) totpOk totpBad sa2 fr2 fid2 now2).2)^[n] st2 = st2)
    ∧ verifyMfa st2 (some payload) totpOk totpGood sa2 fr2 fid2 now2 =
        (.ok ⟨sa2 u, fr2, publicOf u⟩,
         cleanExpiredRefreshTokens
           { st2 with refreshTokens := st2.refreshTokens ++ [⟨fid2, fr2, u.id, now2 + sevenDaysMs⟩] }
           u.id now2)
    ∧ (∀ (s s3 : DB) (d : Option MfaPayload) (code : String) (t : AuthTokens),
        verifyMfa s d totpOk code sa2 fr2 fid2 now2 = (.ok t, s3) →
        ∃ p u2 sec2, d = some p ∧ p.mfaPending = true
          ∧ s.users.find? (fun x => x.id == p.sub) = some u2
          ∧ u2.mfaEnabled = true ∧ u2.mfaSecret = some sec2
          ∧ totpOk sec2 code = true) := by
  have hbf : checkBruteForceProtection st email now = (none, st) := by
    unfold checkBruteForceProtection
    rw [hnoAtt]
  have hlogin : login st email pw now bcryptOk signAccess signMfa fresh fid =
      (.ok (.mfaRequired (signMfa u) mfaRequiredMsg), resetLoginAttempts st email) := by
    unfold login
    rw [hbf]
    simp [hfind, hver, hpw, hmfa]
  have hfail : verifyMfa st2 (some payload) totpOk totpBad sa2 fr2 fid2 now2 =
      (.error ⟨.unauthorized, "Código TOTP inválido. Acceso denegado."⟩, st2) := by
    unfold verifyMfa
    simp [hfind2, hpend, hsec, hmfa, hbad]
  refine ⟨hlogin, rfl, hfail, ?_, ?_, ?_⟩
  · intro n
    exact Function.iterate_fixed (congrArg Prod.snd hfail) n
  · unfold verifyMfa
    simp [hfind2, hpend, hsec, hmfa, hgood]
  · intro s s3 d code t h
    unfold verifyMfa at h
    cases d with
    | none => simp at h
    | some p =>
      by_cases hp : p.mfaPending = true
      · cases hu : s.users.find? (fun x => x.id == p.sub) with
        | none => simp [hp, hu] at h
        | some u2 =>
          cases hs : u2.mfaSecret with
          | none => simp [hp, hu, hs] at h
          | some sec =>
            cases he : u2.mfaEnabled with
            | false => simp [hp, hu, hs, he] at h
            | true =>
              by_cases ht : totpOk sec code = true
              · exact ⟨p, u2, sec, rfl, hp, hu, he, hs, ht⟩
              · simp [hp, hu, hs, he, ht] at h
      · simp [hp] at h

/-- MFA-enabled verified user for witnesses. -/
def uM : UserRow := ⟨"u2", "m@x.com", "Mia", "client", "hash2", true, true, some "SECRET", none⟩

def dbM : DB :=
  { users := [uM], refreshTokens := [], revokedTokens := []
    loginAttempts := [], passwordResets := [], passwordResetAttempts := [] }

def pM : MfaPayload := ⟨"u2", "m@x.com", "client", true⟩

def totpOkM : String → String → Bool := fun s c => s == "SECRET" && c == "123456"

theorem mfa_gate_witness :
    login dbM "m@x.com" "pw" 0 (fun _ _ => true) (fun _ => "acc") (fun _ => "mfa") "rf" 1 =
      (.ok (.mfaRequired "mfa" mfaRequiredMsg), resetLoginAttempts dbM "m@x.com")
    ∧ verifyMfa dbM (some pM) totpOkM "000000" (fun _ => "acc2") "rf2" 2 0 =
        (.error ⟨.unauthorized, "Código TOTP inválido. Acceso denegado."⟩, dbM) := by
  have A := mfa_gate dbM dbM "m@x.com" "pw" "000000" "123456" 0 0
    (fun _ _ => true) (fun _ => "acc") (fun _ => "acc2") (fun _ => "mfa") "rf" "rf2" 1 2
    totpOkM uM "SECRET" pM
    (by decide) (by decide) (by decide) (by decide) (by decide) (by decide)
    (by decide) (by decide) (by decide) (by decide)
  exact ⟨A.1, A.2.2.1⟩

/-- C4: a recorded failure inside the attempt window increments the
identity's counter; once the counter has reached `maxLoginAttempts` (5)
within the window, the next login attempt — whatever the password, since
`checkBruteForceProtection` runs before any credential check — is rejected
as locked and the row is stamped with `lockedUntil = now + 15 min`; and
while `lockedUntil` lies in the future every login attempt is rejected with
the remaining-time message. -/
theorem login_lockout_after_max_failures (st : DB) (email pw : String) (now : Int)
    (bcryptOk : String → String → Bool) (signAccess signMfa : UserRow → String)
    (fresh : String) (fid : Nat) :
    (∀ ex, findLatestAttempt st.loginAttempts
        (fun r => r.email == email && now - attemptWindowMs ≤ r.lastAttemptAt) = some ex →
      recordFailedLoginAttempt st email now fid =
        updateAttemptRow st ex.id (fun r => { r with attempts := ex.attempts + 1, lastAttemptAt := now }))
    ∧ (∀ row, findLatestAttempt st.loginAttempts (fun r => r.email == email) = some row →
        row.lockedUntil = none →
        ¬ row.lastAttemptAt < now - attemptWindowMs →
        maxLoginAttempts ≤ row.attempts →
        login st email pw now bcryptOk signAccess signMfa fresh fid =
          (.error ⟨.unauthorized, lockedNowMsg⟩,
           updateAttemptRow st row.id (fun r => { r with lockedUntil := some (now + lockoutDurationMs) })))
    ∧ (∀ row lu, findLatestAttempt st.loginAttempts (fun r => r.email == email) = some row →
        row.lockedUntil = some lu → now < lu →
        login st email pw now bcryptOk signAccess signMfa fresh fid =
          (.error ⟨.unauthorized, lockedRemainingMsg (ceilMinutes (lu - now))⟩, st)) := by
  refine ⟨?_, ?_, ?_⟩
  · intro ex hfind
    unfold recordFailedLoginAttempt
    rw [hfind]
  · intro row hfind hlock hwin hmax
    have hbf : checkBruteForceProtection st email now =
        (some ⟨.unauthorized, lockedNowMsg⟩,
         updateAttemptRow st row.id (fun r => { r with lockedUntil := some (now + lockoutDurationMs) })) := by
      unfold checkBruteForceProtection bruteForceWindowCheck
      simp [hfind, hlock, hwin, hmax]
    unfold login
    rw [hbf]
  · intro row lu hfind hlock hnow
    have hbf : checkBruteForceProtection st email now =
        (some ⟨.unauthorized, lockedRemainingMsg (ceilMinutes (lu - now))⟩, st) := by
      unfold checkBruteForceProtection
      simp [hfind, hlock, hnow]
    unfold login
    rw [hbf]

/-- Store with 5 failures recorded for `a@x.com` inside the window. -/
def dbL : DB :=
  { users := [⟨"u1", "a@x.com", "Ana", "client", "hash1", true, false, none, none⟩]
    refreshTokens := [], revokedTokens := []
    loginAttempts := [⟨7, "a@x.com", 5, 100, none⟩]
    passwordResets := [], passwordResetAttempts := [] }

/-- Same store but already stamped locked until t = 900500 ms. -/
def dbL2 : DB :=
  { dbL with loginAttempts := [⟨7, "a@x.com", 5, 100, some 900500⟩] }

theorem login_lockout_after_max_failures_witness :
    login dbL "a@x.com" "pw" 200 (fun _ _ => true) (fun _ => "a") (fun _ => "m") "rf" 9 =
      (.error ⟨.unauthorized, lockedNowMsg⟩,
       updateAttemptRow dbL 7 (fun r => { r with lockedUntil := some (200 + lockoutDurationMs) }))
    ∧ login dbL2 "a@x.com" "pw" 200 (fun _ _ => true) (fun _ => "a") (fun _ => "m") "rf" 9 =
      (.error ⟨.unauthorized, lockedRemainingMsg (ceilMinutes (900500 - 200))⟩, dbL2) := by
  refine ⟨?_, ?_⟩
  · exact (login_lockout_after_max_failures dbL "a@x.com" "pw" 200
      (fun _ _ => true) (fun _ => "a") (fun _ => "m") "rf" 9).2.1
      ⟨7, "a@x.com", 5, 100, none⟩ (by decide) rfl (by decide) (by decide)
  · exact (login_lockout_after_max_failures dbL2 "a@x.com" "pw" 200
      (fun _ _ => true) (fun _ => "a") (fun _ => "m") "rf" 9).2.2
      ⟨7, "a@x.com", 5, 100, some 900500⟩ 900500 (by decide) rfl (by decide)

/-- A `findFirst` over rows none of which satisfy the filter returns `none`. -/
theorem findLatestAttempt_eq_none (rows : List LoginAttemptRow)
    (p : LoginAttemptRow → Bool) (h : ∀ r ∈ rows, p r = false) :
    findLatestAttempt rows p = none := by
  unfold findLatestAttempt
  have hnil : rows.filter p = [] := by
    rw [List.filter_eq_nil_iff]
    intro a ha
    simp [h a ha]
  rw [hnil]
  rfl

/-- Recording a failure for an identity with no stored attempt rows creates a
fresh row with `attempts = 1`. -/
theorem recordFailedLoginAttempt_fresh (S : DB) (email : String) (now2 : Int)
    (fid2 : Nat)
    (hall : ∀ r ∈ S.loginAttempts, (r.email == email) = false) :
    recordFailedLoginAttempt S email now2 fid2 =
      { S with loginAttempts := S.loginAttempts ++ [⟨fid2, email, 1, now2, none⟩] } := by
  have h1 : findLatestAttempt S.loginAttempts
      (fun r => r.email == email && now2 - attemptWindowMs ≤ r.lastAttemptAt) = none :=
    findLatestAttempt_eq_none _ _ (fun r hr => by simp [hall r hr])
  have h0 : findLatestAttempt S.loginAttempts (fun r => r.email == email) = none :=
    findLatestAttempt_eq_none _ _ hall
  unfold recordFailedLoginAttempt
  rw [h1, h0]

/-- C5: a successful login deletes every attempt-counter row of that
identity, and the next recorded failure therefore starts a fresh row with
`attempts = 1`. -/
theorem successful_login_clears_attempt_counter (st st' : DB) (email pw : String)
    (now now2 : Int) (bcryptOk : String → String → Bool)
    (signAccess signMfa : UserRow → String) (fresh : String) (fid fid2 : Nat)
    (res : LoginResult)
    (heq : login st email pw now bcryptOk signAccess signMfa fresh fid = (.ok res, st')) :
    (∀ r ∈ st'.loginAttempts, ¬ r.email = email)
    ∧ recordFailedLoginAttempt st' email now2 fid2 =
        { st' with loginAttempts := st'.loginAttempts ++ [⟨fid2, email, 1, now2, none⟩] } := by
  have hall : ∀ r ∈ st'.loginAttempts, (r.email == email) = false := by
    unfold login at heq
    cases hbf : checkBruteForceProtection st email now with
    | mk oe st1 =>
      rw [hbf] at heq
      cases oe with
      | some e => simp at heq
      | none =>
        cases hu : st1.users.find? (fun u => u.email == email) with
        | none => simp [hu] at heq
        | some user =>
          by_cases hv : user.emailVerified = true
          · by_cases hb : bcryptOk pw user.password = true
            · by_cases hm : user.mfaEnabled = true
              · simp only [hu, hv, hb, hm, Bool.not_true, Bool.false_eq_true, if_false,
                  if_true, Prod.mk.injEq, Except.ok.injEq] at heq
                rw [← heq.2]
                intro r hr
                have := (List.mem_filter.1 hr).2
                simpa using this
              · simp only [hu, hv, hb, hm, Bool.not_true, Bool.false_eq_true, if_false,
                  if_true, Prod.mk.injEq, Except.ok.injEq] at heq
                rw [← heq.2]
                intro r hr
                have := (List.mem_filter.1 hr).2
                simpa using this
            · simp [hu, hv, hb] at heq
          · simp [hu, hv] at heq
  refine ⟨fun r hr => by simpa using hall r hr, recordFailedLoginAttempt_fresh st' email now2 fid2 hall⟩

/-- Store produced by a successful (non-MFA) login on `wState` at t = 5 with
fresh refresh token `rf` (row id 9). -/
def c5After : DB :=
  { wState with refreshTokens := [⟨1, "r1", "u1", 1000000⟩, ⟨9, "rf", "u1", 5 + sevenDaysMs⟩] }

theorem successful_login_clears_attempt_counter_witness :
    (∀ r ∈ c5After.loginAttempts, ¬ r.email = "a@x.com")
    ∧ recordFailedLoginAttempt c5After "a@x.com" 50 11 =
        { c5After with loginAttempts := c5After.loginAttempts ++ [⟨11, "a@x.com", 1, 50, none⟩] } :=
  successful_login_clears_attempt_counter wState c5After "a@x.com" "pw" 5 50
    (fun _ _ => true) (fun _ => "a") (fun _ => "m") "rf" 9 11
    (.success "a" "rf" ⟨"u1", "Ana", "a@x.com", "client"⟩) (by decide)

/-- `checkIpRateLimit` touches only the IP-attempt table. -/
theorem checkIpRateLimit_frame (st : DB) (ip : String) (now : Int) (fid : Nat) :
    (checkIpRateLimit st ip now fid).2.users = st.users
    ∧ (checkIpRateLimit st ip now fid).2.passwordResets = st.passwordResets := by
  unfold checkIpRateLimit
  cases h : findLatestIpAttempt st.passwordResetAttempts
      (fun r => r.ipAddress == ip && now - hourMs ≤ r.lastAttemptAt) with
  | some a =>
    by_cases hm : maxResetAttemptsPerHourByIp ≤ a.attempts <;>
      simp [hm, updateIpAttemptRow]
  | none =>
    cases h2 : findLatestIpAttempt st.passwordResetAttempts (fun r => r.ipAddress == ip) with
    | some old => simp [updateIpAttemptRow]
    | none => simp

/-- C7: a password-reset request is rejected with a remaining-time message
whenever the origin-address counter is at its threshold inside its window
(leaving the store untouched), or — even with the IP gate passed — whenever
the per-email counter is at its threshold inside its window (leaving the
reset-token table untouched); and a request that goes through unrejected
implies both counters were under their thresholds. -/
theorem password_reset_dual_rate_limit (st : DB) (email ip freshToken : String)
    (now : Int) (fid : Nat) (mailOk : Bool) :
    (∀ a, findLatestIpAttempt st.passwordResetAttempts
        (fun r => r.ipAddress == ip && now - hourMs ≤ r.lastAttemptAt) = some a →
      maxResetAttemptsPerHourByIp ≤ a.attempts →
      requestPasswordReset st email ip now freshToken fid mailOk =
        (some ⟨.badRequest, ipRateLimitMsg (ceilMinutes (a.lastAttemptAt + hourMs - now))⟩, st))
    ∧ (∀ st1 u ex, checkIpRateLimit st ip now fid = (none, st1) →
        st.users.find? (fun x => x.email == email) = some u →
        st.passwordResets.find? (fun p => p.email == email) = some ex →
        now - hourMs < ex.lastAttemptAt →
        maxResetAttemptsPerHour ≤ ex.attempts →
        requestPasswordReset st email ip now freshToken fid mailOk =
          (some ⟨.badRequest, emailRateLimitMsg (ceilMinutes (ex.lastAttemptAt + hourMs - now))⟩, st1)
        ∧ st1.passwordResets = st.passwordResets)
    ∧ ((requestPasswordReset st email ip now freshToken fid mailOk).1 = none →
        (∀ a, findLatestIpAttempt st.passwordResetAttempts
            (fun r => r.ipAddress == ip && now - hourMs ≤ r.lastAttemptAt) = some a →
          a.attempts < maxResetAttemptsPerHourByIp)
        ∧ (∀ u ex, st.users.find? (fun x => x.email == email) = some u →
            st.passwordResets.find? (fun p => p.email == email) = some ex →
            now - hourMs < ex.lastAttemptAt →
            ex.attempts < maxResetAttemptsPerHour)) := by
  have parta : ∀ a, findLatestIpAttempt st.passwordResetAttempts
      (fun r => r.ipAddress == ip && now - hourMs ≤ r.lastAttemptAt) = some a →
      maxResetAttemptsPerHourByIp ≤ a.attempts →
      requestPasswordReset st email ip now freshToken fid mailOk =
        (some ⟨.badRequest, ipRateLimitMsg (ceilMinutes (a.lastAttemptAt + hourMs - now))⟩, st) := by
    intro a ha hge
    have hcheck : checkIpRateLimit st ip now fid =
        (some ⟨.badRequest, ipRateLimitMsg (ceilMinutes (a.lastAttemptAt + hourMs - now))⟩, st) := by
      unfold checkIpRateLimit
      rw [ha]
      simp [hge]
    unfold requestPasswordReset
    rw [hcheck]
  have partb : ∀ st1 u ex, checkIpRateLimit st ip now fid = (none, st1) →
      st.users.find? (fun x => x.email == email) = some u →
      st.passwordResets.find? (fun p => p.email == email) = some ex →
      now - hourMs < ex.lastAttemptAt →
      maxResetAttemptsPerHour ≤ ex.attempts →
      requestPasswordReset st email ip now freshToken fid mailOk =
        (some ⟨.badRequest, emailRateLimitMsg (ceilMinutes (ex.lastAttemptAt + hourMs - now))⟩, st1)
      ∧ st1.passwordResets = st.passwordResets := by
    intro st1 u ex hcheck hu hex hwin hmax
    have hfu := (checkIpRateLimit_frame st ip now fid).1
    have hfp := (checkIpRateLimit_frame st ip now fid).2
    rw [hcheck] at hfu hfp
    have hu1 : st1.users.find? (fun x => x.email == email) = some u := by
      rw [hfu]; exact hu
    have hex1 : st1.passwordResets.find? (fun p => p.email == email) = some ex := by
      rw [hfp]; exact hex
    refine ⟨?_, hfp⟩
    unfold requestPasswordReset
    rw [hcheck]
    simp only [hu1, hex1, hwin, hmax, if_true, if_pos]
  refine ⟨parta, partb, ?_⟩
  intro hnone
  constructor
  · intro a ha
    by_contra hge
    rw [parta a ha (by omega)] at hnone
    simp at hnone
  · intro u ex hu hex hwin
    by_contra hge
    rcases hc : checkIpRateLimit st ip now fid with ⟨oe, st1⟩
    cases oe with
    | some e =>
      have : requestPasswordReset st email ip now freshToken fid mailOk = (some e, st1) := by
        unfold requestPasswordReset
        rw [hc]
      rw [this] at hnone
      simp at hnone
    | none =>
      have := (partb st1 u ex hc hu hex hwin (by omega)).1
      rw [this] at hnone
      simp at hnone

/-- User for the rate-limit witnesses. -/
def uR : UserRow := ⟨"u3", "r@x.com", "Rosa", "client", "h", true, false, none, none⟩

/-- Store whose IP counter for `1.2.3.4` is at the threshold (5 in window). -/
def dbR : DB :=
  { users := [uR], refreshTokens := [], revokedTokens := [], loginAttempts := []
    passwordResets := [⟨"r@x.com", "tk9", 500000, 3, 100⟩]
    passwordResetAttempts := [⟨4, "1.2.3.4", 5, 100⟩] }

/-- Same store but the IP counter is under threshold (2), while the email
counter is at its threshold (3 in window). -/
def dbR2 : DB :=
  { dbR with passwordResetAttempts := [⟨4, "1.2.3.4", 2, 100⟩] }

/-- `dbR2` after `checkIpRateLimit` advances the IP counter. -/
def dbR2Bumped : DB :=
  { dbR2 with passwordResetAttempts := [⟨4, "1.2.3.4", 3, 200⟩] }

theorem password_reset_dual_rate_limit_witness :
    requestPasswordReset dbR "r@x.com" "1.2.3.4" 200 "fresh" 77 true =
      (some ⟨.badRequest, ipRateLimitMsg (ceilMinutes (100 + hourMs - 200))⟩, dbR)
    ∧ requestPasswordReset dbR2 "r@x.com" "1.2.3.4" 200 "fresh" 77 true =
        (some ⟨.badRequest, emailRateLimitMsg (ceilMinutes (100 + hourMs - 200))⟩, dbR2Bumped) := by
  constructor
  · exact (password_reset_dual_rate_limit dbR "r@x.com" "1.2.3.4" "fresh" 200 77 true).1
      ⟨4, "1.2.3.4", 5, 100⟩ (by decide) (by decide)
  · exact ((password_reset_dual_rate_limit dbR2 "r@x.com" "1.2.3.4" "fresh" 200 77 true).2.1
      dbR2Bumped uR ⟨"r@x.com", "tk9", 500000, 3, 100⟩
      (by decide) (by decide) (by decide) (by decide) (by decide)).1

/-- Store with no account at all for the login identity. -/
def dbU : DB :=
  { users := [], refreshTokens := [], revokedTokens := [], loginAttempts := []
    passwordResets := [], passwordResetAttempts := [] }

/-- Store whose only account for `a@x.com` is not yet email-verified. -/
def dbV : DB :=
  { dbU with users := [⟨"u1", "a@x.com", "Ana", "client", "hash1", false, false, none, none⟩] }

/-- C8 counterexample: unknown email and wrong password both return the
neutral message, but an unverified account returns a distinct
verification-prompt message — the three cases do not share one single
neutral message. -/
theorem login_messages_counterexample :
    ((login dbU "a@x.com" "pw" 0 (fun _ _ => true) (fun _ => "a") (fun _ => "m") "rf" 1).1 =
      .error ⟨.unauthorized, invalidCredentialsMsg⟩)
    ∧ ((login wState "a@x.com" "pw" 0 (fun _ _ => false) (fun _ => "a") (fun _ => "m") "rf" 1).1 =
      .error ⟨.unauthorized, invalidCredentialsMsg⟩)
    ∧ ((login dbV "a@x.com" "pw" 0 (fun _ _ => true) (fun _ => "a") (fun _ => "m") "rf" 1).1 =
      .error ⟨.unauthorized, emailNotVerifiedMsg⟩)
    ∧ emailNotVerifiedMsg ≠ invalidCredentialsMsg := by
  refine ⟨by decide, by decide, by decide, by decide⟩

/-- C8 amended: at the login boundary, unknown email and wrong password are
indistinguishable — both produce exactly the neutral message — while an
unverified account produces its own distinct verification-prompt message
(in addition to the distinct lockout and TOTP-required responses). -/
theorem login_message_neutrality_amended (st : DB) (email pw : String) (now : Int)
    (bcryptOk : String → String → Bool) (signAccess signMfa : UserRow → String)
    (fresh : String) (fid : Nat) :
    (∀ st1, checkBruteForceProtection st email now = (none, st1) →
      st1.users.find? (fun u => u.email == email) = none →
      (login st email pw now bcryptOk signAccess signMfa fresh fid).1 =
        .error ⟨.unauthorized, invalidCredentialsMsg⟩)
    ∧ (∀ st1 user, checkBruteForceProtection st email now = (none, st1) →
        st1.users.find? (fun u => u.email == email) = some user →
        user.emailVerified = true → bcryptOk pw user.password = false →
        (login st email pw now bcryptOk signAccess signMfa fresh fid).1 =
          .error ⟨.unauthorized, invalidCredentialsMsg⟩)
    ∧ (∀ st1 user, checkBruteForceProtection st email now = (none, st1) →
        st1.users.find? (fun u => u.email == email) = some user →
        user.emailVerified = false →
        (login st email pw now bcryptOk signAccess signMfa fresh fid).1 =
          .error ⟨.unauthorized, emailNotVerifiedMsg⟩) := by
  refine ⟨?_, ?_, ?_⟩
  · intro st1 hbf hfind
    unfold login
    rw [hbf]
    simp [hfind]
  · intro st1 user hbf hfind hv hb
    unfold login
    rw [hbf]
    simp [hfind, hv, hb]
  · intro st1 user hbf hfind hv
    unfold login
    rw [hbf]
    simp [hfind, hv]

theorem login_message_neutrality_amended_witness :
    ((login dbU "a@x.com" "pw" 0 (fun _ _ => true) (fun _ => "a") (fun _ => "m") "rf" 1).1 =
      .error ⟨.unauthorized, invalidCredentialsMsg⟩)
    ∧ ((login dbV "a@x.com" "pw" 0 (fun _ _ => true) (fun _ => "a") (fun _ => "m") "rf" 1).1 =
      .error ⟨.unauthorized, emailNotVerifiedMsg⟩) := by
  constructor
  · exact (login_message_neutrality_amended dbU "a@x.com" "pw" 0
      (fun _ _ => true) (fun _ => "a") (fun _ => "m") "rf" 1).1 dbU (by decide) (by decide)
  · exact (login_message_neutrality_amended dbV "a@x.com" "pw" 0
      (fun _ _ => true) (fun _ => "a") (fun _ => "m") "rf" 1).2.2 dbV
      ⟨"u1", "a@x.com", "Ana", "client", "hash1", false, false, none, none⟩
      (by decide) (by decide) (by decide)

/-- The hex encoding of a byte list has two characters per byte. -/
theorem hexEncode_length (bytes : List Nat) :
    (hexEncode bytes).length = 2 * bytes.length := by
  induction bytes with
  | nil => rfl
  | cons b bs ih =>
    unfold hexEncode at ih ⊢
    simp only [List.map_cons, List.flatten_cons, String.length] at ih ⊢
    simp [byteToHex] at ih ⊢
    omega

/-- C9 counterexample: the password-reset code produced by `generateOTP` in
`password-reset.service.ts` is a 6-character decimal string derived from
`Math.random()`; it cannot be the hex encoding of 32 or more random bytes,
which always spans at least 64 characters. -/
theorem otp_not_32byte_hex_counterexample :
    (generateOTP 0).length = 6
    ∧ ¬ ∃ bytes : List Nat, 32 ≤ bytes.length ∧ generateOTP 0 = hexEncode bytes := by
  have hv : otpValue 0 = 100000 := by
    unfold otpValue
    norm_num
  have hs : generateOTP 0 = "100000" := by
    unfold generateOTP
    rw [hv]
    rfl
  have h6 : (generateOTP 0).length = 6 := by
    rw [hs]
    rfl
  refine ⟨h6, ?_⟩
  rintro ⟨bytes, h32, heq⟩
  have h2 := hexEncode_length bytes
  rw [heq] at h6
  omega

/-- C9 amended: the refresh token (64 random bytes), the reset-link token
(32 random bytes) and the email-verification token (32 random bytes) are
hex encodings of their CSPRNG byte inputs — 128 and 64 characters long and
functions of nothing but those bytes — while the OTP-style reset code of
`password-reset.service.ts` is the decimal string of
`Math.floor(100000 + Math.random() * 900000)`, a value between 100000 and
999999 (6 digits), built from non-cryptographic randomness. -/
theorem token_generation_amended (rb64 rb32 : List Nat) (q : ℚ)
    (h64 : rb64.length = 64) (h32 : rb32.length = 32)
    (hq0 : 0 ≤ q) (hq1 : q < 1) :
    (generateRefreshToken rb64).length = 128
    ∧ (generateResetToken rb32).length = 64
    ∧ (generateVerificationToken rb32).length = 64
    ∧ 100000 ≤ otpValue q ∧ otpValue q ≤ 999999 := by
  refine ⟨?_, ?_, ?_, ?_, ?_⟩
  · rw [generateRefreshToken, hexEncode_length, h64]
  · rw [generateResetToken, hexEncode_length, h32]
  · rw [generateVerificationToken, hexEncode_length, h32]
  · unfold otpValue
    rw [Int.le_floor]
    push_cast
    nlinarith
  · unfold otpValue
    have hlt : ((100000 : ℚ) + q * 900000) < 1000000 := by nlinarith
    have := Int.floor_lt.mpr (by push_cast; linarith : ((100000 : ℚ) + q * 900000) < ((1000000 : Int) : ℚ))
    omega

theorem token_generation_amended_witness :
    (generateRefreshToken (List.replicate 64 7)).length = 128
    ∧ (generateResetToken (List.replicate 32 7)).length = 64
    ∧ (generateVerificationToken (List.replicate 32 7)).length = 64
    ∧ 100000 ≤ otpValue 0 ∧ otpValue 0 ≤ 999999 :=
  token_generation_amended (List.replicate 64 7) (List.replicate 32 7) 0
    (by simp) (by simp) (le_refl 0) zero_lt_one
